import Mathlib

/-!
Verification development for the Celo Forno "block is out of range"
reproduction script (`src/send.ts`).

The script is a sequential send-and-observe loop: it reads configuration
from environment variables, prints the account and balance, then runs
`numSends` iterations, each of which submits a self-transfer and waits for
its receipt, classifying every outcome into success / block-out-of-range
failure / other failure, and finally prints an aggregate report.

This file shallowly embeds the script:
* JavaScript values that flow through the classifier and logger are
  modelled by the inductive `Json` (the script only ever inspects
  null / boolean / number / string / array / object shapes);
* a caught exception is a `JsError` with optional `message` and
  `details` fields, exactly the two fields `send.ts` reads;
* one loop iteration produces an `IterEvent`: either the awaited receipt
  (with its `status` string) or the caught error;
* the mutable `results` record is the structure `Results`, updated by
  `step`, which transcribes the branch structure of the loop body
  (`src/send.ts` lines 124-169);
* the RPC logging transport (`loggingTransport`, lines 15-86) is
  modelled by its atomic segments between `await` points.
-/

namespace FornoSend

/-- JavaScript/JSON values as the script observes them: `send.ts` only
branches on null, string, number, boolean, array and object shapes. -/
inductive Json where
  | null : Json
  | bool (b : Bool) : Json
  | num (n : Int) : Json
  | str (s : String) : Json
  | arr (xs : List Json) : Json
  | obj (fs : List (String × Json)) : Json
deriving Repr

/-- JavaScript truthiness of a value (`undefined` is represented by
`Option.none` at use sites): `null`, `false`, `0` and the empty string
are falsy; objects and arrays are always truthy. -/
def jsTruthy : Json → Bool
  | Json.null => false
  | Json.bool b => b
  | Json.num n => n != 0
  | Json.str s => s != ""
  | Json.arr _ => true
  | Json.obj _ => true

/-- Escape one character for a JSON string literal (quote and backslash;
the script never feeds control characters through `JSON.stringify`). -/
def escapeJsonChar (c : Char) : String :=
  if c == '"' then "\\\""
  else if c == '\\' then "\\\\"
  else String.singleton c

/-- Escape a JSON string literal body. -/
def escapeJsonString (s : String) : String :=
  String.join (s.data.map escapeJsonChar)

mutual

/-- `JSON.stringify` as the script uses it (integral numbers, compact
separators, first binding wins for duplicate keys). -/
def jstringify : Json → String
  | Json.null => "null"
  | Json.bool b => if b then "true" else "false"
  | Json.num n => toString n
  | Json.str s => "\"" ++ escapeJsonString s ++ "\""
  | Json.arr xs => "[" ++ jstringifyList xs ++ "]"
  | Json.obj fs => "\x7b" ++ jstringifyFields fs ++ "\x7d"

/-- Comma-joined stringified array elements. -/
def jstringifyList : List Json → String
  | [] => ""
  | [x] => jstringify x
  | x :: y :: xs => jstringify x ++ "," ++ jstringifyList (y :: xs)

/-- Comma-joined stringified object fields. -/
def jstringifyFields : List (String × Json) → String
  | [] => ""
  | [(k, v)] => "\"" ++ escapeJsonString k ++ "\":" ++ jstringify v
  | (k, v) :: f :: fs =>
      "\"" ++ escapeJsonString k ++ "\":" ++ jstringify v ++ "," ++
        jstringifyFields (f :: fs)

end

/-- ASCII lowercasing, modelling `String.prototype.toLowerCase` on the
ASCII payloads the script handles. -/
def lowerStr (s : String) : String :=
  String.mk (s.data.map Char.toLower)

/-- Is `pre` a character-list prefix of `l`? -/
def charListPre : List Char → List Char → Bool
  | [], _ => true
  | _ :: _, [] => false
  | a :: as, b :: bs => a == b && charListPre as bs

/-- Substring containment, modelling `String.prototype.includes`. -/
def strContains (hay needle : String) : Bool :=
  (List.range (hay.data.length + 1)).any
    (fun i => charListPre needle.data (hay.data.drop i))

/-- A caught JavaScript error as `send.ts` reads it: the optional
`message` and the optional structured `details` blob (`none` models an
absent / `undefined` field). -/
structure JsError where
  message : Option String
  details : Option Json
deriving Repr

/-- `error?.message?.toLowerCase() || ""` (line 147). -/
def errMessageLower (e : JsError) : String :=
  match e.message with
  | some m => lowerStr m
  | none => ""

/-- `error?.details || \x7b\x7d`: the details value, or the empty object
when the field is absent or falsy (line 148). -/
def errDetailsValue (e : JsError) : Json :=
  match e.details with
  | some d => if jsTruthy d then d else Json.obj []
  | none => Json.obj []

/-- `JSON.stringify(error?.details || \x7b\x7d).toLowerCase()` (line 148). -/
def errDetailsLower (e : JsError) : String :=
  lowerStr (jstringify (errDetailsValue e))

/-- The block-out-of-range test of lines 150-154: the lowercased message
contains "block is out of range", or the lowercased stringified details
contain "block is out of range" or "-32019". -/
def isBlockOutOfRange (e : JsError) : Bool :=
  strContains (errMessageLower e) "block is out of range" ||
  strContains (errDetailsLower e) "block is out of range" ||
  strContains (errDetailsLower e) "-32019"

/-- What one iteration of the send loop observes inside its `try` block:
either `waitForTransactionReceipt` returned a receipt, of which only the
`status` string is inspected, or some step threw an error that the
`catch` block receives. -/
inductive IterEvent where
  | receipt (status : String) : IterEvent
  | errored (e : JsError) : IterEvent
deriving Repr

/-- The per-iteration outcome as the spec names it: Success,
FailureBlockOutOfRange, or FailureOther with the logged message
(lines 136-160: a non-success receipt logs the fixed message
"tx status not success"; a non-matching error logs the lowercased
error message). -/
inductive Outcome where
  | success : Outcome
  | blockOutOfRange : Outcome
  | other (msg : String) : Outcome
deriving Repr, DecidableEq

/-- Classification of one iteration event, read off the branch structure
of `src/send.ts` lines 136-160. -/
def classify : IterEvent → Outcome
  | IterEvent.receipt s =>
      if s == "success" then Outcome.success
      else Outcome.other "tx status not success"
  | IterEvent.errored e =>
      if isBlockOutOfRange e then Outcome.blockOutOfRange
      else Outcome.other (errMessageLower e)

/-- The `results` record of `src/send.ts` lines 114-120. -/
structure Results where
  total : Nat
  successful : Nat
  failed : Nat
  blockOutOfRangeErrors : Nat
  otherErrors : Nat
deriving Repr, DecidableEq

/-- Initial `results` value: `total` is set to `numSends` up front, the
four tallies start at zero (lines 114-120). -/
def initResults (numSends : Nat) : Results :=
  { total := numSends, successful := 0, failed := 0,
    blockOutOfRangeErrors := 0, otherErrors := 0 }

/-- One execution of the loop body's tallying (lines 136-163):
* receipt with status "success": `successful++`;
* receipt with any other status: `failed++` (and nothing else);
* caught error: `failed++`, then `blockOutOfRangeErrors++` when the
  block-out-of-range test matches, else `otherErrors++`. -/
def step (r : Results) (ev : IterEvent) : Results :=
  match ev with
  | IterEvent.receipt s =>
      if s == "success" then
        { r with successful := r.successful + 1 }
      else
        { r with failed := r.failed + 1 }
  | IterEvent.errored e =>
      if isBlockOutOfRange e then
        { r with failed := r.failed + 1,
                 blockOutOfRangeErrors := r.blockOutOfRangeErrors + 1 }
      else
        { r with failed := r.failed + 1,
                 otherErrors := r.otherErrors + 1 }

/-- The whole send loop over its per-iteration events: the loop runs
`numSends` iterations and each iteration contributes exactly one event,
so a run is determined by the event list and `total = events.length`. -/
def runLoop (events : List IterEvent) : Results :=
  events.foldl step (initResults events.length)

/-- Does the event classify as a success? (`receipt.status === "success"`.) -/
def isSuccessEv : IterEvent → Bool
  | IterEvent.receipt s => s == "success"
  | IterEvent.errored _ => false

/-- Is the event a receipt with non-success status? -/
def isNonSuccessReceipt : IterEvent → Bool
  | IterEvent.receipt s => !(s == "success")
  | IterEvent.errored _ => false

/-- Is the event an error matching the block-out-of-range test? -/
def isBoorError : IterEvent → Bool
  | IterEvent.receipt _ => false
  | IterEvent.errored e => isBlockOutOfRange e

/-- Is the event an error NOT matching the block-out-of-range test? -/
def isOtherError : IterEvent → Bool
  | IterEvent.receipt _ => false
  | IterEvent.errored e => !(isBlockOutOfRange e)

/-- Count of events satisfying a predicate. -/
def countEv (p : IterEvent → Bool) : List IterEvent → Nat
  | [] => 0
  | e :: es => (if p e then 1 else 0) + countEv p es

/-- `step` never touches the `total` field, so folding preserves it. -/
theorem total_foldl (l : List IterEvent) :
    ∀ r : Results, (l.foldl step r).total = r.total := by
  induction l with
  | nil => intro r; rfl
  | cons ev es ih =>
    intro r
    rw [List.foldl_cons, ih]
    cases ev with
    | receipt s => by_cases h : (s == "success") = true <;> simp [step, h]
    | errored e => by_cases h : isBlockOutOfRange e = true <;> simp [step, h]

/-- Folding `step` adds one to `successful` exactly for each event that is
a receipt with status "success". -/
theorem successful_foldl (l : List IterEvent) :
    ∀ r : Results,
      (l.foldl step r).successful = r.successful + countEv isSuccessEv l := by
  induction l with
  | nil => intro r; simp [countEv]
  | cons ev es ih =>
    intro r
    rw [List.foldl_cons, ih]
    cases ev with
    | receipt s =>
      by_cases h : (s == "success") = true <;>
        simp [step, countEv, isSuccessEv, h]
      all_goals omega
    | errored e =>
      by_cases h : isBlockOutOfRange e = true <;>
        simp [step, countEv, isSuccessEv, h]

/-- Folding `step` adds one to `failed` exactly for each event that is not
a success receipt (non-success receipts and all caught errors). -/
theorem failed_foldl (l : List IterEvent) :
    ∀ r : Results,
      (l.foldl step r).failed
        = r.failed + countEv (fun ev => !(isSuccessEv ev)) l := by
  induction l with
  | nil => intro r; simp [countEv]
  | cons ev es ih =>
    intro r
    rw [List.foldl_cons, ih]
    cases ev with
    | receipt s =>
      by_cases h : (s == "success") = true <;>
        simp [step, countEv, isSuccessEv, h]
      all_goals omega
    | errored e =>
      by_cases h : isBlockOutOfRange e = true <;>
        simp [step, countEv, isSuccessEv, h]
      all_goals omega

/-- Folding `step` adds one to `blockOutOfRangeErrors` exactly for each
caught error matching the block-out-of-range test. -/
theorem boor_foldl (l : List IterEvent) :
    ∀ r : Results,
      (l.foldl step r).blockOutOfRangeErrors
        = r.blockOutOfRangeErrors + countEv isBoorError l := by
  induction l with
  | nil => intro r; simp [countEv]
  | cons ev es ih =>
    intro r
    rw [List.foldl_cons, ih]
    cases ev with
    | receipt s =>
      by_cases h : (s == "success") = true <;>
        simp [step, countEv, isBoorError, h]
    | errored e =>
      by_cases h : isBlockOutOfRange e = true <;>
        simp [step, countEv, isBoorError, h]
      all_goals omega

/-- Folding `step` adds one to `otherErrors` exactly for each caught error
NOT matching the block-out-of-range test; in particular a non-success
receipt leaves `otherErrors` untouched. -/
theorem other_foldl (l : List IterEvent) :
    ∀ r : Results,
      (l.foldl step r).otherErrors = r.otherErrors + countEv isOtherError l := by
  induction l with
  | nil => intro r; simp [countEv]
  | cons ev es ih =>
    intro r
    rw [List.foldl_cons, ih]
    cases ev with
    | receipt s =>
      by_cases h : (s == "success") = true <;>
        simp [step, countEv, isOtherError, h]
    | errored e =>
      by_cases h : isBlockOutOfRange e = true <;>
        simp [step, countEv, isOtherError, h]
      all_goals omega

/-- Every non-success event is exactly one of: non-success receipt,
block-out-of-range error, other error. -/
theorem countEv_partition (l : List IterEvent) :
    countEv (fun ev => !(isSuccessEv ev)) l
      = countEv isNonSuccessReceipt l + countEv isBoorError l
          + countEv isOtherError l := by
  induction l with
  | nil => simp [countEv]
  | cons ev es ih =>
    simp only [countEv, ih]
    cases ev with
    | receipt s =>
      by_cases h : (s == "success") = true <;>
        simp [isSuccessEv, isNonSuccessReceipt, isBoorError,
              isOtherError, h]
      all_goals omega
    | errored e =>
      by_cases h : isBlockOutOfRange e = true <;>
        simp [isSuccessEv, isNonSuccessReceipt, isBoorError,
              isOtherError, h]
      all_goals omega

/-- Success events and non-success events together count every event. -/
theorem countEv_length (l : List IterEvent) :
    countEv isSuccessEv l + countEv (fun ev => !(isSuccessEv ev)) l
      = l.length := by
  induction l with
  | nil => simp [countEv]
  | cons ev es ih =>
    by_cases h : isSuccessEv ev = true <;>
      simp [countEv, h]
    all_goals omega

/-- The percentage computation of the final report
(`(results.successful / results.total) * 100`, lines 173-184): JavaScript
number division is total, and `0 / 0` evaluates to `NaN` (and `n / 0` to
`Infinity`), which `toFixed` then renders as "NaN" / "Infinity". The
non-finite results are modelled by `none`; a finite percentage is the
exact rational. -/
def pctJs (num den : Nat) : Option ℚ :=
  if den = 0 then none else some (((num : ℚ) / (den : ℚ)) * 100)

/-- JavaScript falsiness of an optional string: an absent (`undefined`)
variable and the empty string are both falsy. -/
def jsFalsyStr : Option String → Bool
  | none => true
  | some s => s == ""

/-- The environment variables `main` reads (lines 90-91); `none` models
an unset variable. -/
structure Env where
  PRIVATE_KEY : Option String
  RPC_URL : Option String

/-- Observable actions of `main` before the send loop: console output,
outbound network calls, and process exit. -/
inductive MainEvent where
  | consoleError (line : String) : MainEvent
  | consoleLog (line : String) : MainEvent
  | networkCall (name : String) : MainEvent
  | exitProcess (code : Nat) : MainEvent
deriving Repr, DecidableEq

/-- `process.env.RPC_URL || "https://forno.celo.org"` (line 90). -/
def resolveRpcUrl (env : Env) : String :=
  match env.RPC_URL with
  | some u => if u == "" then "https://forno.celo.org" else u
  | none => "https://forno.celo.org"

/-- The initialization of `main` (`src/send.ts` lines 88-111) as the
sequence of observable events it performs, up to and including the first
network interaction (the balance query) when initialization succeeds.
If `PRIVATE_KEY` is falsy (unset or empty), `main` prints two error lines
and exits with status 1 before constructing any client. Otherwise it
derives the account (a pure computation of the external wallet library,
passed in abstractly as `deriveAddr` — it makes no network call), prints
the account and RPC URL, and queries the balance over the network; the
send loop follows. -/
def mainPrelude (deriveAddr : String → String) (env : Env) : List MainEvent :=
  let rpcUrl := resolveRpcUrl env
  if jsFalsyStr env.PRIVATE_KEY then
    [MainEvent.consoleError "Error: PRIVATE_KEY environment variable is required",
     MainEvent.consoleError "Usage: PRIVATE_KEY=0x... RPC_URL=https://... yarn start",
     MainEvent.exitProcess 1]
  else
    [MainEvent.consoleLog ("Account: " ++ deriveAddr ((env.PRIVATE_KEY).getD "")),
     MainEvent.consoleLog ("RPC URL: " ++ rpcUrl),
     MainEvent.networkCall "eth_getBalance"]

/-- Character-count prefix of a string, modelling `slice(0, n)` on the
ASCII payloads the logger truncates. -/
def strTake (s : String) (n : Nat) : String :=
  String.mk (s.data.take n)

/-- Character count of a string (`.length` on ASCII payloads). -/
def strLen (s : String) : Nat :=
  s.data.length

mutual

/-- JavaScript string coercion of a value as used in the logger's
template literals: strings verbatim, numbers and booleans printed,
`null` prints "null", arrays join their displayed elements with commas
(`null` elements display as empty), plain objects display as
"[object Object]". -/
def jsDisplay : Json → String
  | Json.null => "null"
  | Json.bool b => if b then "true" else "false"
  | Json.num n => toString n
  | Json.str s => s
  | Json.arr xs => jsDisplayArr xs
  | Json.obj _ => "[object Object]"

/-- Comma-joined display of array elements. -/
def jsDisplayArr : List Json → String
  | [] => ""
  | x :: xs =>
      let hd := match x with
        | Json.null => ""
        | _ => jsDisplay x
      match xs with
      | [] => hd
      | _ :: _ => hd ++ "," ++ jsDisplayArr xs

end

/-- Property read on a value (`value.key`): only plain objects have the
string-keyed properties the logger probes; `none` models `undefined`.
Objects built by `JSON.parse` have distinct keys, so first-match lookup
is exact. -/
def lookupField (j : Json) (k : String) : Option Json :=
  match j with
  | Json.obj fs => fs.lookup k
  | _ => none

/-- Display of a possibly-absent property inside a template literal
(`undefined` renders as "undefined"). -/
def displayOpt : Option Json → String
  | some j => jsDisplay j
  | none => "undefined"

/-- `value?.length`: arrays and strings have a length, other values give
`undefined` (`none`). -/
def jsLenOf : Json → Option Nat
  | Json.arr xs => some xs.length
  | Json.str s => some (strLen s)
  | _ => none

/-- An RPC exchange as seen by the logging transport: the request method
and params, and the awaited result of the inner HTTP transport — either
a JSON result or a thrown error. -/
structure RpcExchange where
  method : String
  params : List Json
  outcome : Except JsError Json

/-- The params display of `loggingTransport` (lines 24-31): empty when
there are no params, else a space plus the stringified params truncated
to 80 characters, with "..." appended when truncation lost characters. -/
def paramsString (params : List Json) : String :=
  if params.length > 0 then
    let js := jstringify (Json.arr params)
    " " ++ strTake js 80 ++ (if strLen js > 80 then "..." else "")
  else ""

/-- The `typeof result === "object"` part of the summary (lines 42-67). -/
def summarizeObject (r : Json) : String :=
  match lookupField r "status" with
  | some st =>
      "status=" ++ jsDisplay st ++ " block="
        ++ displayOpt (lookupField r "blockNumber")
  | none =>
    match lookupField r "number" with
    | some nv =>
        let hash := match lookupField r "hash" with
          | some h =>
              if jsTruthy h then strTake (jsDisplay h) 10 ++ "..." else "none"
          | none => "none"
        let parentHash := match lookupField r "parentHash" with
          | some h =>
              if jsTruthy h then strTake (jsDisplay h) 10 ++ "..." else "none"
          | none => "none"
        let txCount := match lookupField r "transactions" with
          | some t =>
              match jsLenOf t with
              | some n => n
              | none => 0
          | none => 0
        "block=" ++ jsDisplay nv ++ " hash=" ++ hash ++ " parent="
          ++ parentHash ++ " txs=" ++ toString txCount
    | none =>
      match lookupField r "blockNumber" with
      | some bn => "blockNumber=" ++ jsDisplay bn
      | none => strTake (jstringify r) 60

/-- The result summary of `loggingTransport` (lines 36-70): `null` and
strings (truncated at 60) directly; objects by shape — receipt-like
(has `status`), block-like (has `number`), transaction-like (has
`blockNumber`), else truncated JSON; other primitives via `String()`. -/
def summarize (r : Json) : String :=
  match r with
  | Json.null => "null"
  | Json.str s => if strLen s > 60 then strTake s 60 ++ "..." else s
  | Json.bool b => jsDisplay (Json.bool b)
  | Json.num n => jsDisplay (Json.num n)
  | Json.arr xs => summarizeObject (Json.arr xs)
  | Json.obj fs => summarizeObject (Json.obj fs)

/-- `error?.details || error?.message || "Unknown error"` falling through
to the message (lines 78). -/
def errorFallbackMsg (e : JsError) : String :=
  match e.message with
  | some m => if m == "" then "Unknown error" else m
  | none => "Unknown error"

/-- The request line the transport logs: "  [RPC] method params". -/
def requestLine (x : RpcExchange) : String :=
  "  [RPC] " ++ x.method ++ paramsString x.params

/-- The result-or-error line the transport logs right after the request
line: the summarized result on success (line 74), or
"ERROR: details-or-message" on a thrown error (lines 78-80). -/
def resultLine (x : RpcExchange) : String :=
  match x.outcome with
  | Except.ok r => "        → " ++ summarize r
  | Except.error e =>
      let msg := match e.details with
        | some d => if jsTruthy d then jsDisplay d else errorFallbackMsg e
        | none => errorFallbackMsg e
      "        → ERROR: " ++ msg

/-- The atomic segments of one `loggingTransport.request` invocation,
split at its `await` points (the only places where JavaScript's
single-threaded run loop can interleave another task):
* the segment before `await httpTransport.request(args)` computes the
  params display and logs nothing;
* the segment after the await computes the summary and emits BOTH
  console lines (request, then result-or-error) with no intervening
  suspension point, then returns.
A concurrent trace is therefore a concatenation of whole segments. -/
def handlerSegments (x : RpcExchange) : List (List String) :=
  [[], [requestLine x, resultLine x]]

/-- Is the event an outbound network interaction? -/
def isNetworkCall : MainEvent → Bool
  | MainEvent.networkCall _ => true
  | _ => false

/-- Claim C1, counterexample: the claimed pair of final-summary equations
fails on a run whose single iteration obtains a receipt with non-success
status — that branch increments `failed` but neither
`blockOutOfRangeErrors` nor `otherErrors`, so
`blockOutOfRangeErrors + otherErrors = 0 ≠ 1 = failed`. -/
theorem claim1_counterexample :
    ¬((runLoop [IterEvent.receipt "reverted"]).successful
          + (runLoop [IterEvent.receipt "reverted"]).failed
        = (runLoop [IterEvent.receipt "reverted"]).total
      ∧ (runLoop [IterEvent.receipt "reverted"]).blockOutOfRangeErrors
          + (runLoop [IterEvent.receipt "reverted"]).otherErrors
        = (runLoop [IterEvent.receipt "reverted"]).failed) := by
  decide

/-- Claim C1, amended: for every run, `successful + failed = total`, and
`blockOutOfRangeErrors + otherErrors` equals `failed` minus the number of
iterations that obtained a receipt with non-success status (so the second
claimed equation holds exactly when no iteration ends in a non-success
receipt, and `blockOutOfRangeErrors + otherErrors ≤ failed` always). -/
theorem claim1_amended_invariants (events : List IterEvent) :
    (runLoop events).successful + (runLoop events).failed
        = (runLoop events).total
    ∧ (runLoop events).blockOutOfRangeErrors + (runLoop events).otherErrors
          + countEv isNonSuccessReceipt events
        = (runLoop events).failed := by
  unfold runLoop
  rw [successful_foldl, failed_foldl, boor_foldl, other_foldl, total_foldl]
  have hpart := countEv_partition events
  have hlen := countEv_length events
  simp only [initResults]
  omega

/-- Claim C2, counterexample: an error whose message contains "-32019"
but whose details are absent is classified FailureOther, not
FailureBlockOutOfRange — the code checks "-32019" only against the
stringified details, never against the message. -/
theorem claim2_counterexample :
    strContains (lowerStr "rpc error -32019") "-32019" = true
    ∧ classify (IterEvent.errored ⟨some "rpc error -32019", none⟩)
        = Outcome.other "rpc error -32019"
    ∧ (step (initResults 1)
          (IterEvent.errored ⟨some "rpc error -32019", none⟩)).blockOutOfRangeErrors
        = 0
    ∧ (step (initResults 1)
          (IterEvent.errored ⟨some "rpc error -32019", none⟩)).otherErrors
        = 1 := by
  decide

/-- Claim C2, amended: a caught error whose lowercased message contains
"block is out of range", or whose lowercased JSON-stringified details
contain "block is out of range" or "-32019", is classified
FailureBlockOutOfRange: the `blockOutOfRangeErrors` counter is
incremented and `otherErrors` is untouched. ("-32019" appearing only in
the message does not trigger this classification.) -/
theorem claim2_amended_classification (r : Results) (e : JsError)
    (h : strContains (errMessageLower e) "block is out of range" = true
       ∨ strContains (errDetailsLower e) "block is out of range" = true
       ∨ strContains (errDetailsLower e) "-32019" = true) :
    classify (IterEvent.errored e) = Outcome.blockOutOfRange
    ∧ (step r (IterEvent.errored e)).blockOutOfRangeErrors
        = r.blockOutOfRangeErrors + 1
    ∧ (step r (IterEvent.errored e)).otherErrors = r.otherErrors := by
  have hb : isBlockOutOfRange e = true := by
    rcases h with h | h | h <;> simp [isBlockOutOfRange, h]
  refine ⟨?_, ?_, ?_⟩ <;> simp [classify, step, hb]

/-- Claim C2, witness: a concrete error whose message contains
"block is out of range" in mixed case classifies as
FailureBlockOutOfRange. -/
theorem claim2_witness :
    classify (IterEvent.errored ⟨some "Block is OUT of range", none⟩)
        = Outcome.blockOutOfRange
    ∧ (step (initResults 5)
          (IterEvent.errored ⟨some "Block is OUT of range", none⟩)).blockOutOfRangeErrors
        = (initResults 5).blockOutOfRangeErrors + 1
    ∧ (step (initResults 5)
          (IterEvent.errored ⟨some "Block is OUT of range", none⟩)).otherErrors
        = (initResults 5).otherErrors :=
  claim2_amended_classification (initResults 5)
    ⟨some "Block is OUT of range", none⟩ (Or.inl (by decide))

/-- Claim C3, counterexample: a receipt with non-success status is
classified FailureOther with the fixed message, but it is NOT counted in
the `otherErrors` tally — only `failed` is incremented. -/
theorem claim3_counterexample :
    classify (IterEvent.receipt "reverted")
        = Outcome.other "tx status not success"
    ∧ (step (initResults 1) (IterEvent.receipt "reverted")).otherErrors = 0
    ∧ (step (initResults 1) (IterEvent.receipt "reverted")).failed = 1 := by
  decide

/-- Claim C3, amended: a receipt with non-success status is classified
FailureOther with the fixed message "tx status not success", never
Success and never FailureBlockOutOfRange; it increments `failed` only —
in particular it is not added to the `otherErrors` tally. -/
theorem claim3_amended_nonsuccess_receipt (r : Results) (s : String)
    (h : (s == "success") = false) :
    classify (IterEvent.receipt s) = Outcome.other "tx status not success"
    ∧ (step r (IterEvent.receipt s)).failed = r.failed + 1
    ∧ (step r (IterEvent.receipt s)).successful = r.successful
    ∧ (step r (IterEvent.receipt s)).blockOutOfRangeErrors
        = r.blockOutOfRangeErrors
    ∧ (step r (IterEvent.receipt s)).otherErrors = r.otherErrors := by
  refine ⟨?_, ?_, ?_, ?_, ?_⟩ <;> simp [classify, step, h]

/-- Claim C3, witness: the "reverted" receipt status at a concrete tally
state. -/
theorem claim3_witness :
    classify (IterEvent.receipt "reverted")
        = Outcome.other "tx status not success"
    ∧ (step (initResults 3) (IterEvent.receipt "reverted")).failed
        = (initResults 3).failed + 1
    ∧ (step (initResults 3) (IterEvent.receipt "reverted")).successful
        = (initResults 3).successful
    ∧ (step (initResults 3) (IterEvent.receipt "reverted")).blockOutOfRangeErrors
        = (initResults 3).blockOutOfRangeErrors
    ∧ (step (initResults 3) (IterEvent.receipt "reverted")).otherErrors
        = (initResults 3).otherErrors :=
  claim3_amended_nonsuccess_receipt (initResults 3) "reverted" (by decide)

/-- Claim C4, counterexample: with iteration count 0 the summary is all
zeros, but the percentage JavaScript computes is `0 / 0 = NaN` (the
non-finite value, modelled `none`), which `toFixed` renders as "NaN" —
the report does NOT show the claimed 0%. -/
theorem claim4_counterexample :
    (runLoop []).total = 0
    ∧ pctJs (runLoop []).successful (runLoop []).total ≠ some 0 := by
  decide

/-- Claim C4, amended: with iteration count 0 the run completes
immediately and the summary is {total 0, successful 0, failed 0}; the
percentage computation does not crash (JavaScript division is total) but
evaluates `0 / 0` to the non-finite NaN, reported as "NaN%", not as 0%. -/
theorem claim4_amended_zero_iterations :
    runLoop [] = initResults 0
    ∧ (runLoop []).total = 0
    ∧ (runLoop []).successful = 0
    ∧ (runLoop []).failed = 0
    ∧ pctJs (runLoop []).successful (runLoop []).total = none
    ∧ pctJs (runLoop []).failed (runLoop []).total = none := by
  decide

/-- Claim C5: when `PRIVATE_KEY` is absent (or empty, equally falsy),
`main` prints the two error lines and exits with status 1, and its event
trace contains no network call of any kind. -/
theorem claim5_missing_private_key (deriveAddr : String → String) (env : Env)
    (h : jsFalsyStr env.PRIVATE_KEY = true) :
    mainPrelude deriveAddr env
      = [MainEvent.consoleError
           "Error: PRIVATE_KEY environment variable is required",
         MainEvent.consoleError
           "Usage: PRIVATE_KEY=0x... RPC_URL=https://... yarn start",
         MainEvent.exitProcess 1]
    ∧ (mainPrelude deriveAddr env).all (fun ev => !(isNetworkCall ev))
        = true := by
  have h1 : mainPrelude deriveAddr env
      = [MainEvent.consoleError
           "Error: PRIVATE_KEY environment variable is required",
         MainEvent.consoleError
           "Usage: PRIVATE_KEY=0x... RPC_URL=https://... yarn start",
         MainEvent.exitProcess 1] := by
    simp [mainPrelude, h]
  refine ⟨h1, ?_⟩
  rw [h1]
  decide

/-- Claim C5, witness: the concrete environment with both variables
unset. -/
theorem claim5_witness :
    mainPrelude (fun _ => "0xaccount") ⟨none, none⟩
      = [MainEvent.consoleError
           "Error: PRIVATE_KEY environment variable is required",
         MainEvent.consoleError
           "Usage: PRIVATE_KEY=0x... RPC_URL=https://... yarn start",
         MainEvent.exitProcess 1]
    ∧ (mainPrelude (fun _ => "0xaccount") ⟨none, none⟩).all
          (fun ev => !(isNetworkCall ev))
        = true :=
  claim5_missing_private_key (fun _ => "0xaccount") ⟨none, none⟩ (by decide)

/-- Claim C6: the scripted outcome sequence
[Success, BlockOutOfRange, Other, Success] — realized by a success
receipt, a block-out-of-range error, a non-matching error and a success
receipt — folds to the summary {total 4, successful 2, failed 2,
blockOutOfRangeErrors 1, otherErrors 1}. -/
theorem claim6_scripted_summary :
    (List.map classify
        [IterEvent.receipt "success",
         IterEvent.errored ⟨some "block is out of range", none⟩,
         IterEvent.errored ⟨some "insufficient funds", none⟩,
         IterEvent.receipt "success"]
      = [Outcome.success, Outcome.blockOutOfRange,
         Outcome.other "insufficient funds", Outcome.success])
    ∧ runLoop
        [IterEvent.receipt "success",
         IterEvent.errored ⟨some "block is out of range", none⟩,
         IterEvent.errored ⟨some "insufficient funds", none⟩,
         IterEvent.receipt "success"]
      = { total := 4, successful := 2, failed := 2,
          blockOutOfRangeErrors := 1, otherErrors := 1 } := by
  decide

/-- Claim C7: the run processes every one of its N iterations exactly
once, whatever each iteration's outcome: every caught error still
contributes exactly one recorded failure, so after folding the whole
event list `successful + failed` equals the number of iterations — no
early abort (nothing is dropped) and no retry (nothing is counted
twice). The fold is a total function: per-iteration errors are data
consumed by the `catch` branch of `step`, never propagated. -/
theorem claim7_run_processes_every_iteration (events : List IterEvent) :
    (runLoop events).successful + (runLoop events).failed
      = events.length := by
  unfold runLoop
  rw [successful_foldl, failed_foldl]
  have hlen := countEv_length events
  simp only [initResults]
  omega

/-- Claim C8: any trace formed by interleaving whole atomic segments of
`loggingTransport.request` invocations (the only interleaving JavaScript
permits, since the two `console.log` calls are separated by no `await`)
is exactly a concatenation of adjacent request-line / result-line pairs:
each logged request line is immediately followed by its own
result-or-error line, with no interleaving from a concurrent call. -/
theorem claim8_atomic_log_pairs (sched : List (List String))
    (h : ∀ s ∈ sched, ∃ x : RpcExchange, s ∈ handlerSegments x) :
    ∃ xs : List RpcExchange,
      sched.flatten
        = (xs.map (fun x => [requestLine x, resultLine x])).flatten := by
  induction sched with
  | nil => exact ⟨[], rfl⟩
  | cons s rest ih =>
    obtain ⟨x, hx⟩ := h s (List.mem_cons_self s rest)
    obtain ⟨xs, hxs⟩ := ih (fun t ht => h t (List.mem_cons_of_mem s ht))
    simp only [handlerSegments, List.mem_cons, List.not_mem_nil,
               or_false] at hx
    rcases hx with hx | hx
    · exact ⟨xs, by simp [hx, hxs]⟩
    · exact ⟨x :: xs, by simp [hx, hxs]⟩

/-- Claim C8, witness: two concrete concurrent invocations (an
errored `eth_getBlockByNumber` and a successful
`eth_getTransactionCount`) scheduled with their segments interleaved. -/
theorem claim8_witness :
    ∃ xs : List RpcExchange,
      (List.flatten
        [[requestLine ⟨"eth_getBlockByNumber",
                       [Json.str "0x2fa3fe6", Json.bool true],
                       Except.error ⟨some "block is out of range", none⟩⟩,
          resultLine ⟨"eth_getBlockByNumber",
                      [Json.str "0x2fa3fe6", Json.bool true],
                      Except.error ⟨some "block is out of range", none⟩⟩],
         [],
         [requestLine ⟨"eth_getTransactionCount",
                       [Json.str "0xabc", Json.str "pending"],
                       Except.ok (Json.str "0x14c")⟩,
          resultLine ⟨"eth_getTransactionCount",
                      [Json.str "0xabc", Json.str "pending"],
                      Except.ok (Json.str "0x14c")⟩]])
        = (xs.map (fun x => [requestLine x, resultLine x])).flatten :=
  claim8_atomic_log_pairs _ (by
    intro s hs
    simp only [List.mem_cons, List.not_mem_nil, or_false] at hs
    rcases hs with rfl | rfl | rfl
    · exact ⟨⟨"eth_getBlockByNumber",
              [Json.str "0x2fa3fe6", Json.bool true],
              Except.error ⟨some "block is out of range", none⟩⟩,
            by simp [handlerSegments]⟩
    · exact ⟨⟨"eth_getBlockByNumber",
              [Json.str "0x2fa3fe6", Json.bool true],
              Except.error ⟨some "block is out of range", none⟩⟩,
            by simp [handlerSegments]⟩
    · exact ⟨⟨"eth_getTransactionCount",
              [Json.str "0xabc", Json.str "pending"],
              Except.ok (Json.str "0x14c")⟩,
            by simp [handlerSegments]⟩)

/-- Claim C9: after any number k of completed iterations (any prefix of
the run), the tally satisfies
`blockOutOfRangeErrors + otherErrors ≤ failed` (an inequality, since
non-success receipts count toward `failed` only) and
`successful + failed = k` — every outcome branch preserves both. -/
theorem claim9_prefix_invariant (events : List IterEvent) (k : Nat)
    (h : k ≤ events.length) :
    (runLoop (events.take k)).blockOutOfRangeErrors
          + (runLoop (events.take k)).otherErrors
        ≤ (runLoop (events.take k)).failed
    ∧ (runLoop (events.take k)).successful
          + (runLoop (events.take k)).failed
        = k := by
  unfold runLoop
  rw [successful_foldl, failed_foldl, boor_foldl, other_foldl]
  have hpart := countEv_partition (events.take k)
  have hlen := countEv_length (events.take k)
  have htake : (events.take k).length = k := by
    rw [List.length_take]
    omega
  simp only [initResults]
  omega

/-- Claim C9, witness: the invariant after the first of two scripted
iterations. -/
theorem claim9_witness :
    (runLoop (List.take 1
          [IterEvent.receipt "success",
           IterEvent.errored ⟨some "boom", none⟩])).blockOutOfRangeErrors
          + (runLoop (List.take 1
              [IterEvent.receipt "success",
               IterEvent.errored ⟨some "boom", none⟩])).otherErrors
        ≤ (runLoop (List.take 1
            [IterEvent.receipt "success",
             IterEvent.errored ⟨some "boom", none⟩])).failed
    ∧ (runLoop (List.take 1
          [IterEvent.receipt "success",
           IterEvent.errored ⟨some "boom", none⟩])).successful
          + (runLoop (List.take 1
              [IterEvent.receipt "success",
               IterEvent.errored ⟨some "boom", none⟩])).failed
        = 1 :=
  claim9_prefix_invariant
    [IterEvent.receipt "success", IterEvent.errored ⟨some "boom", none⟩]
    1 (by decide)

/-- Claim C10: classification is pure substring inclusion — ANY error
whose lowercased JSON-stringified details contain the character sequence
"-32019" anywhere (even embedded inside an unrelated number, hash or
string field) is classified FailureBlockOutOfRange: the
`blockOutOfRangeErrors` counter is incremented and `otherErrors` is
untouched. -/
theorem claim10_details_substring (r : Results) (e : JsError)
    (h : strContains (errDetailsLower e) "-32019" = true) :
    classify (IterEvent.errored e) = Outcome.blockOutOfRange
    ∧ (step r (IterEvent.errored e)).blockOutOfRangeErrors
        = r.blockOutOfRangeErrors + 1
    ∧ (step r (IterEvent.errored e)).otherErrors = r.otherErrors := by
  have hb : isBlockOutOfRange e = true := by
    simp [isBlockOutOfRange, h]
  refine ⟨?_, ?_, ?_⟩ <;> simp [classify, step, hb]

/-- Claim C10, witness: an error whose details carry the unrelated
numeric field `code = -320190` — its stringified form contains "-32019"
as an embedded substring — classifies as FailureBlockOutOfRange even
though nothing about it is a block-out-of-range condition. -/
theorem claim10_witness :
    classify (IterEvent.errored
        ⟨some "http request failed",
         some (Json.obj [("code", Json.num (-320190)),
                         ("hash", Json.str "0xdead")])⟩)
        = Outcome.blockOutOfRange
    ∧ (step (initResults 2) (IterEvent.errored
          ⟨some "http request failed",
           some (Json.obj [("code", Json.num (-320190)),
                           ("hash", Json.str "0xdead")])⟩)).blockOutOfRangeErrors
        = (initResults 2).blockOutOfRangeErrors + 1
    ∧ (step (initResults 2) (IterEvent.errored
          ⟨some "http request failed",
           some (Json.obj [("code", Json.num (-320190)),
                           ("hash", Json.str "0xdead")])⟩)).otherErrors
        = (initResults 2).otherErrors :=
  claim10_details_substring (initResults 2)
    ⟨some "http request failed",
     some (Json.obj [("code", Json.num (-320190)),
                     ("hash", Json.str "0xdead")])⟩ (by decide)

end FornoSend
